import Mathlib

/-!
Shallow embedding of the turn-based dungeon simulation (files
`src/state.rs`, `src/item.rs`, `src/npc.rs`, `src/game_condition.rs`).

Conventions of the embedding:
* Rust `i32` values become `Int`, `usize` becomes `Nat`, `Vec<T>` becomes
  `List T`, and `String` stays `String`.
* Calls to `rand::thread_rng().gen_range(lo..=hi)` are modelled by an
  explicit entropy parameter `rand : Nat`; the drawn value is
  `lo + rand % (hi - lo + 1)`, which covers exactly the inclusive range
  that the Rust generator returns.
* The repository contains two item enums (`state.rs` declares
  Weapon/Armor/Potion/Food/Tool/Key/TreasureChest/Treasure, `item.rs`
  declares Key/TreasureChest/Treasure/Gem/Scroll/Potion); the embedding
  uses their union, which is harmless because every embedded function
  only compares constructors.
-/

inductive TileType
  | Floor | Wall | Door | Stairs | Empty
  deriving DecidableEq, Repr

inductive ItemType
  | Weapon | Armor | Potion | Food | Tool | Key | TreasureChest | Treasure | Gem | Scroll
  deriving DecidableEq, Repr

structure Item where
  item_type : ItemType
  label : String
  description : String
  deriving DecidableEq, Repr

structure WorldItem where
  position : Int × Int
  item : Item
  deriving DecidableEq, Repr

inductive NPCType
  | Goblin | Orc | Skeleton | Merchant | Guard
  deriving DecidableEq, Repr

/-- `NPC` as declared in `state.rs` (the copy in `npc.rs` omits the
inventory field, which none of the embedded behaviour functions read). -/
structure NPC where
  position : Int × Int
  inventory : List Item
  npc_type : NPCType
  name : String
  deriving DecidableEq, Repr

structure Player where
  position : Int × Int
  health : Int
  max_health : Int
  level : Int
  experience : Int
  inventory : List Item
  deriving DecidableEq, Repr

/-- `Player::move_to`. -/
def Player.move_to (p : Player) (new_pos : Int × Int) : Player :=
  { p with position := new_pos }

/-- Two's-complement wrap of an unbounded integer into the `i32` range,
the value an overflowing `i32` operation produces in a release build. -/
def wrapI32 (n : Int) : Int :=
  (n + 2147483648) % 4294967296 - 2147483648

/-- `Player::take_damage`: `self.health = (self.health - damage).max(0)`.
The `i32` subtraction is embedded without wrap: for every representable
pair with `0 ≤ health` and `0 ≤ damage ≤ i32::MAX` the difference stays
within `i32` bounds, so overflow cannot occur on such inputs. -/
def Player.take_damage (p : Player) (damage : Int) : Player :=
  { p with health := max (p.health - damage) 0 }

/-- `Player::heal`: `self.health = (self.health + amount).min(self.max_health)`.
The `i32` addition `self.health + amount` can overflow even for valid
states and nonnegative amounts (e.g. `health = 100`,
`amount = i32::MAX`), so it is embedded with the two's-complement wrap a
release build computes. -/
def Player.heal (p : Player) (amount : Int) : Player :=
  { p with health := min (wrapI32 (p.health + amount)) p.max_health }

/-- `Player::is_alive`: `self.health > 0`. -/
def Player.is_alive (p : Player) : Bool :=
  p.health > 0

structure GameWorld where
  size : Nat × Nat
  current_floor : Int
  tiles : List (List TileType)
  items : List WorldItem
  deriving DecidableEq, Repr

/-- Loop body of `GameWorld::generate_simple_room`: the tile written at
cell `(x, y)` of a `width × height` grid. -/
def tileFor (width height x y : Nat) : TileType :=
  if x = 0 ∨ x = width - 1 ∨ y = 0 ∨ y = height - 1 then TileType.Wall
  else if (x + y) % 7 = 0 then TileType.Floor
  else TileType.Empty

/-- The grid produced by `GameWorld::generate_simple_room` (which assigns
`tileFor` at every `x < width`, `y < height`). -/
def GameWorld.generate_simple_room (width height : Nat) : List (List TileType) :=
  (List.range width).map fun x => (List.range height).map fun y => tileFor width height x y

/-- `GameWorld::new(width, height)`: fresh world whose tiles come from
`generate_simple_room`. -/
def GameWorld.new (width height : Nat) : GameWorld :=
  { size := (width, height)
    current_floor := 1
    tiles := GameWorld.generate_simple_room width height
    items := [] }

/-- `GameWorld::get_tile`. -/
def GameWorld.get_tile (w : GameWorld) (x y : Int) : Option TileType :=
  if 0 ≤ x ∧ 0 ≤ y ∧ x.toNat < w.size.1 ∧ y.toNat < w.size.2 then
    (w.tiles[x.toNat]?).bind fun col => col[y.toNat]?
  else
    none

/-- `GameWorld::is_walkable`. -/
def GameWorld.is_walkable (w : GameWorld) (x y : Int) : Bool :=
  match w.get_tile x y with
  | some TileType.Floor | some TileType.Door | some TileType.Empty => true
  | _ => false

/-- `GameWorld::is_valid_position`. -/
def GameWorld.is_valid_position (w : GameWorld) (x y : Int) : Bool :=
  decide (0 ≤ x) && decide (0 ≤ y) && decide (x.toNat < w.size.1) && decide (y.toNat < w.size.2)

structure GameState where
  player : Player
  world : GameWorld
  npcs : List NPC
  log_messages : List String
  game_over : Bool
  deriving DecidableEq, Repr

/-- List-level body of `GameState::add_log_message`: push, then
`remove(0)` once the length passes 50. -/
def pushLog (l : List String) (message : String) : List String :=
  let l2 := l ++ [message]
  if l2.length > 50 then l2.drop 1 else l2

/-- `GameState::add_log_message`. -/
def GameState.add_log_message (s : GameState) (message : String) : GameState :=
  { s with log_messages := pushLog s.log_messages message }

inductive GameStatus
  | Playing | Won | Lost
  deriving DecidableEq, Repr

/-- `TreasureHuntCondition::check_status`. -/
def TreasureHuntCondition.check_status (s : GameState) : GameStatus :=
  if !(s.player.is_alive) then GameStatus.Lost
  else if s.player.inventory.any fun item => item.item_type == ItemType.Treasure then
    GameStatus.Won
  else GameStatus.Playing

structure SurvivalCondition where
  target_turns : Nat
  deriving DecidableEq, Repr

/-- `SurvivalCondition::check_status`. -/
def SurvivalCondition.check_status (c : SurvivalCondition) (s : GameState) : GameStatus :=
  if !(s.player.is_alive) then GameStatus.Lost
  else if s.log_messages.length ≥ c.target_turns then GameStatus.Won
  else GameStatus.Playing

structure CollectionCondition where
  required_items : List (ItemType × Nat)
  deriving DecidableEq, Repr

/-- The early-exit requirement scan inside `CollectionCondition::check_status`:
the first unmet `(item_type, count)` pair short-circuits to `Playing`. -/
def collectionScan (inventory : List Item) : List (ItemType × Nat) → GameStatus
  | [] => GameStatus.Won
  | (required_type, required_count) :: rest =>
    if (inventory.filter fun item => item.item_type == required_type).length < required_count then
      GameStatus.Playing
    else collectionScan inventory rest

/-- `CollectionCondition::check_status`. -/
def CollectionCondition.check_status (c : CollectionCondition) (s : GameState) : GameStatus :=
  if !(s.player.is_alive) then GameStatus.Lost
  else collectionScan s.player.inventory c.required_items

inductive InteractionResult
  | Nothing
  | NPC (npc : NPC)
  | Item (item : Item)
  deriving DecidableEq, Repr

/-- Model of `rand::thread_rng().gen_range(5..=20)`: for any entropy
value the result lies in the inclusive range `[5, 20]`. -/
def genRange5to20 (rand : Nat) : Int :=
  5 + ((rand % 16 : Nat) : Int)

/-- The `Key` item built in `interact_with_npc` for a destroyed skeleton. -/
def boneKey : Item :=
  { item_type := ItemType.Key
    label := "Bone Key"
    description := "A key carved from ancient bone." }

/-- `GameState::interact_with_npc`. -/
def GameState.interact_with_npc (s : GameState) (rand : Nat) (npc : NPC) :
    GameState × InteractionResult :=
  match npc.npc_type with
  | NPCType.Skeleton =>
    (s.add_log_message "The skeleton collapses to a pile of bones",
      InteractionResult.Item boneKey)
  | NPCType.Orc =>
    let damage := genRange5to20 rand
    let s1 := { s with player := s.player.take_damage damage }
    (s1.add_log_message (npc.name ++ " attacks you for " ++ toString damage ++ " damage!"),
      InteractionResult.NPC npc)
  | NPCType.Goblin =>
    (s.add_log_message "Goblin cackles and tweaks your nose", InteractionResult.NPC npc)
  | _ =>
    (s.add_log_message ("You interact with " ++ npc.name ++ "."), InteractionResult.NPC npc)

/-- Model of `self.npcs.iter().position(|npc| npc.position == new_pos)`
followed by `self.npcs.remove(npc_index)`: returns the first NPC found at
`p` together with the collection with that occurrence removed. -/
def removeFirstAt : List NPC → Int × Int → Option (NPC × List NPC)
  | [], _ => none
  | npc :: rest, p =>
    if npc.position = p then some (npc, rest)
    else
      match removeFirstAt rest p with
      | some (found, rest2) => some (found, npc :: rest2)
      | none => none

/-- `GameState::try_move_player`. -/
def GameState.try_move_player (s : GameState) (rand : Nat) (dx dy : Int) :
    GameState × Bool :=
  let new_pos := (s.player.position.1 + dx, s.player.position.2 + dy)
  if !(s.world.is_valid_position new_pos.1 new_pos.2) ||
      !(s.world.is_walkable new_pos.1 new_pos.2) then
    (s.add_log_message "Can\x27t move there!", false)
  else
    match removeFirstAt s.npcs new_pos with
    | some (npc, remaining) =>
      let res := GameState.interact_with_npc { s with npcs := remaining } rand npc
      let s3 :=
        match res.2 with
        | InteractionResult.Nothing => res.1
        | InteractionResult.NPC npc2 => { res.1 with npcs := res.1.npcs ++ [npc2] }
        | InteractionResult.Item item =>
          { res.1 with
            world := { res.1.world with
              items := res.1.world.items ++ [WorldItem.mk new_pos item] } }
      (s3, false)
    | none =>
      let s2 := { s with player := s.player.move_to new_pos }
      (s2.add_log_message
        ("Moved to (" ++ toString new_pos.1 ++ ", " ++ toString new_pos.2 ++ ")"), true)

/-- Model of `inventory.iter().position(|i| i.item_type == TreasureChest)`
followed by `remove(chest_index)`: the inventory with the first treasure
chest removed, or `none` when no chest is present. -/
def removeFirstChest : List Item → Option (List Item)
  | [] => none
  | item :: rest =>
    if item.item_type = ItemType.TreasureChest then some rest
    else (removeFirstChest rest).map fun r => item :: r

/-- The `Treasure` item built in `use_item`. -/
def treasurePile : Item :=
  { item_type := ItemType.Treasure
    label := "Pile of Treasure"
    description := "Glittering coins and gems scattered on the ground." }

/-- `GameState::use_item` (version in `state.rs`; the caller has already
removed `item` from the inventory and this function never re-inserts it). -/
def GameState.use_item (s : GameState) (item : Item) : GameState :=
  match item.item_type with
  | ItemType.Key =>
    match removeFirstChest s.player.inventory with
    | some inv2 =>
      let s1 := { s with player := { s.player with inventory := inv2 } }
      let s2 := s1.add_log_message
        "When the key clicks in the lock the treasure chest spills open, dropping a pile of treasure on the ground"
      { s2 with
        world := { s2.world with
          items := s2.world.items ++ [WorldItem.mk s2.player.position treasurePile] } }
    | none =>
      s.add_log_message ("You used " ++ item.label ++ ", but you need a treasure chest to unlock.")
  | _ =>
    s.add_log_message ("You used " ++ item.label ++ ", but nothing happens.")

/-- Per-axis step of `move_towards_player_or_attack`
(`if d > 0 { 1 } else if d < 0 { -1 } else { 0 }`). -/
def signStep (d : Int) : Int :=
  if d > 0 then 1 else if d < 0 then -1 else 0

/-- The one-step greedy target computed at the top of
`move_towards_player_or_attack`. -/
def orcStepTarget (npc : NPC) (player : Player) : Int × Int :=
  (npc.position.1 + signStep (player.position.1 - npc.position.1),
    npc.position.2 + signStep (player.position.2 - npc.position.2))

/-- `NPC::move_towards_player_or_attack`: returns the updated orc, the
updated player and the log messages produced this turn. -/
def NPC.move_towards_player_or_attack (npc : NPC) (world : GameWorld) (player : Player)
    (other_npcs : List NPC) (rand : Nat) : NPC × Player × List String :=
  let new_pos := orcStepTarget npc player
  if new_pos = player.position then
    let damage := genRange5to20 rand
    (npc, player.take_damage damage,
      ["The orc " ++ npc.name ++ " attacks you for " ++ toString damage ++ " damage!"])
  else if !(world.is_valid_position new_pos.1 new_pos.2) ||
      !(world.is_walkable new_pos.1 new_pos.2) then
    (npc, player, [])
  else if other_npcs.any fun n => n.position == new_pos then
    (npc, player, [])
  else
    ({ npc with position := new_pos }, player, [])

/-- The four cardinal directions used by the random-walk moves. -/
def directions : List (Int × Int) :=
  [(0, 1), (0, -1), (1, 0), (-1, 0)]

/-- `NPC::try_random_move_orc`, with the two random direction draws
supplied as the list `rands` (the Rust loop makes at most 2 attempts). -/
def NPC.try_random_move_orc (npc : NPC) (world : GameWorld) (player : Player)
    (other_npcs : List NPC) : List Nat → NPC
  | [] => npc
  | r :: rest =>
    let d := directions.getD (r % 4) (0, 1)
    let new_pos := (npc.position.1 + d.1, npc.position.2 + d.2)
    if !(world.is_valid_position new_pos.1 new_pos.2) ||
        !(world.is_walkable new_pos.1 new_pos.2) then
      npc.try_random_move_orc world player other_npcs rest
    else if player.position = new_pos then
      npc.try_random_move_orc world player other_npcs rest
    else if other_npcs.any fun n => n.position == new_pos then
      npc.try_random_move_orc world player other_npcs rest
    else
      { npc with position := new_pos }

/-- Squared Euclidean distance between integer grid positions.
`NPC::distance_to_player` computes `sqrt((dx*dx + dy*dy) as f32)` and
`orc_behavior` tests `distance <= 5.0`; on integer deltas that `f32` test
holds exactly when `dx^2 + dy^2 ≤ 25` (both sides of 25 are exactly
representable and `sqrt` is correctly rounded and monotone). -/
def distSq (a b : Int × Int) : Int :=
  (a.1 - b.1) ^ 2 + (a.2 - b.2) ^ 2

/-- `NPC::orc_behavior`: chase-or-attack when within Euclidean distance
5.0 of the player, otherwise random-walk (entropy `r1`, `r2`). -/
def NPC.orc_behavior (npc : NPC) (world : GameWorld) (player : Player)
    (other_npcs : List NPC) (rand r1 r2 : Nat) : NPC × Player × List String :=
  if distSq npc.position player.position ≤ 25 then
    npc.move_towards_player_or_attack world player other_npcs rand
  else
    (npc.try_random_move_orc world player other_npcs [r1, r2], player, [])

/-! ### Concrete fixtures used by the witness theorems -/

/-- A 5×5 all-floor world: every in-bounds tile is walkable. -/
def flatWorld : GameWorld :=
  { size := (5, 5)
    current_floor := 1
    tiles := List.replicate 5 (List.replicate 5 TileType.Floor)
    items := [] }

/-- A fresh player standing at `(x, y)`. -/
def mkPlayer (x y : Int) : Player :=
  { position := (x, y)
    health := 100
    max_health := 100
    level := 1
    experience := 0
    inventory := [] }

/-- A state on `flatWorld` with the given player and NPC collection. -/
def mkState (p : Player) (npcs : List NPC) : GameState :=
  { player := p
    world := flatWorld
    npcs := npcs
    log_messages := []
    game_over := false }

def skeletonNPC : NPC :=
  { position := (2, 1), inventory := [], npc_type := NPCType.Skeleton, name := "Bonecrusher" }

def orcNPC : NPC :=
  { position := (2, 1), inventory := [], npc_type := NPCType.Orc, name := "Orc Warrior" }

/-! ### Helper lemmas -/

theorem pushLog_length (l : List String) (m : String) (h : l.length ≤ 50) :
    (pushLog l m).length ≤ 50 := by
  unfold pushLog
  by_cases hc : (l ++ [m]).length > 50
  · rw [if_pos hc]; simp; omega
  · rw [if_neg hc]; simp at hc ⊢; omega

theorem foldl_pushLog_eq : ∀ (msgs l : List String), l.length ≤ 50 →
    msgs.foldl pushLog l = (l ++ msgs).drop ((l ++ msgs).length - 50)
  | [], l, h => by simp [Nat.sub_eq_zero_of_le h]
  | m :: rest, l, h => by
    rw [List.foldl_cons, foldl_pushLog_eq rest (pushLog l m) (pushLog_length l m h)]
    by_cases hc : (l ++ [m]).length > 50
    · have h50 : l.length = 50 := by simp at hc; omega
      have hp : pushLog l m = (l ++ [m]).drop 1 := by unfold pushLog; rw [if_pos hc]
      rw [hp]
      have hX : ((l ++ [m]).drop 1 ++ rest).length - 50 = rest.length := by
        simp only [List.length_append, List.length_drop, List.length_cons, List.length_nil]
        omega
      rw [hX]
      have hcombine : (l ++ [m]).drop 1 ++ rest = ((l ++ [m]) ++ rest).drop 1 :=
        (List.drop_append_of_le_length (by simp)).symm
      rw [hcombine, List.drop_drop]
      have heq : l ++ m :: rest = (l ++ [m]) ++ rest := by simp
      rw [heq]
      have hZ : ((l ++ [m]) ++ rest).length - 50 = 1 + rest.length := by
        simp only [List.length_append, List.length_cons, List.length_nil]
        omega
      rw [hZ]
    · have hp : pushLog l m = l ++ [m] := by unfold pushLog; rw [if_neg hc]
      have heq : (l ++ [m]) ++ rest = l ++ m :: rest := by simp
      rw [hp, heq]

theorem foldl_add_log_message : ∀ (msgs : List String) (s : GameState),
    (msgs.foldl GameState.add_log_message s).log_messages = msgs.foldl pushLog s.log_messages
  | [], _ => rfl
  | m :: rest, s => by
    rw [List.foldl_cons, List.foldl_cons, foldl_add_log_message rest]
    rfl

/-! ### Claim theorems -/

/-- Claim C1: in every game mode (TreasureHunt, Survival, Collection), a
state whose player has health ≤ 0 is reported `Lost` by `check_status`,
regardless of the mode's win predicate. -/
theorem check_status_lost_when_dead (s : GameState) (sc : SurvivalCondition)
    (cc : CollectionCondition) (h : s.player.health ≤ 0) :
    TreasureHuntCondition.check_status s = GameStatus.Lost ∧
    sc.check_status s = GameStatus.Lost ∧
    cc.check_status s = GameStatus.Lost := by
  have halive : s.player.is_alive = false := by
    unfold Player.is_alive
    simp only [decide_eq_false_iff_not]
    omega
  refine ⟨?_, ?_, ?_⟩ <;>
    simp [TreasureHuntCondition.check_status, SurvivalCondition.check_status,
      CollectionCondition.check_status, halive]

/-- Witness for C1 at a concrete dead-player state. -/
theorem check_status_lost_when_dead_witness :
    TreasureHuntCondition.check_status
        (mkState { mkPlayer 1 1 with health := 0 } []) = GameStatus.Lost ∧
    SurvivalCondition.check_status ⟨50⟩
        (mkState { mkPlayer 1 1 with health := 0 } []) = GameStatus.Lost ∧
    CollectionCondition.check_status ⟨[]⟩
        (mkState { mkPlayer 1 1 with health := 0 } []) = GameStatus.Lost :=
  check_status_lost_when_dead (mkState { mkPlayer 1 1 with health := 0 } []) ⟨50⟩ ⟨[]⟩
    (by decide)

/-- Claim C5: world generation is deterministic; every border cell is a
Wall (and unwalkable), and every interior cell is Floor exactly when
`(x + y) % 7 = 0`, Empty otherwise. -/
theorem generated_world_layout (width height x y : Nat)
    (hx : x < width) (hy : y < height) :
    (GameWorld.new width height).get_tile (x : Int) (y : Int) =
      some (tileFor width height x y) ∧
    ((x = 0 ∨ x = width - 1 ∨ y = 0 ∨ y = height - 1) →
      tileFor width height x y = TileType.Wall ∧
      (GameWorld.new width height).is_walkable (x : Int) (y : Int) = false) ∧
    (¬(x = 0 ∨ x = width - 1 ∨ y = 0 ∨ y = height - 1) →
      ((x + y) % 7 = 0 → tileFor width height x y = TileType.Floor) ∧
      ((x + y) % 7 ≠ 0 → tileFor width height x y = TileType.Empty)) ∧
    GameWorld.new width height = GameWorld.new width height := by
  have hget : (GameWorld.new width height).get_tile (x : Int) (y : Int) =
      some (tileFor width height x y) := by
    unfold GameWorld.get_tile GameWorld.new GameWorld.generate_simple_room
    rw [if_pos]
    · simp [List.getElem?_map, List.getElem?_range, hx, hy]
    · refine ⟨Int.natCast_nonneg x, Int.natCast_nonneg y, ?_, ?_⟩ <;>
        simp [Int.toNat_natCast, hx, hy]
  refine ⟨hget, ?_, ?_, rfl⟩
  · intro hb
    have hwall : tileFor width height x y = TileType.Wall := by
      unfold tileFor; rw [if_pos hb]
    refine ⟨hwall, ?_⟩
    unfold GameWorld.is_walkable
    rw [hget, hwall]
  · intro hb
    constructor
    · intro h7
      unfold tileFor
      rw [if_neg hb, if_pos h7]
    · intro h7
      unfold tileFor
      rw [if_neg hb, if_neg h7]

/-- Witness for C5 at a concrete 5×5 world: the border cell `(0, 2)` is a
Wall and unwalkable, and the interior cell `(3, 4)` satisfies the mod-7
rule. -/
theorem generated_world_layout_witness :
    ((GameWorld.new 5 5).get_tile ((0 : Nat) : Int) ((2 : Nat) : Int) =
        some (tileFor 5 5 0 2) ∧
      tileFor 5 5 0 2 = TileType.Wall ∧
      (GameWorld.new 5 5).is_walkable ((0 : Nat) : Int) ((2 : Nat) : Int) = false) ∧
    ((3 + 3) % 7 ≠ 0 → tileFor 5 5 3 3 = TileType.Empty) :=
  ⟨⟨(generated_world_layout 5 5 0 2 (by decide) (by decide)).1,
    ((generated_world_layout 5 5 0 2 (by decide) (by decide)).2.1 (Or.inl rfl)).1,
    ((generated_world_layout 5 5 0 2 (by decide) (by decide)).2.1 (Or.inl rfl)).2⟩,
    ((generated_world_layout 5 5 3 3 (by decide) (by decide)).2.2.1 (by decide)).2⟩

/-- Claim C6: `add_log_message` keeps the log at ≤ 50 entries when it was
at ≤ 50 before, and eviction is FIFO: 60 sequential appends starting from
an empty log leave exactly the last 50 messages in append order. -/
theorem log_bounded_fifo (s s0 : GameState) (m : String) (msgs : List String)
    (h : s.log_messages.length ≤ 50) (h0 : s0.log_messages = [])
    (hlen : msgs.length = 60) :
    (s.add_log_message m).log_messages.length ≤ 50 ∧
    (msgs.foldl GameState.add_log_message s0).log_messages = msgs.drop 10 := by
  constructor
  · exact pushLog_length s.log_messages m h
  · rw [foldl_add_log_message, h0, foldl_pushLog_eq msgs [] (by simp)]
    simp [hlen]

/-- Witness for C6: one append to an empty log and 60 concrete appends. -/
theorem log_bounded_fifo_witness :
    ((mkState (mkPlayer 1 1) []).add_log_message "hello").log_messages.length ≤ 50 ∧
    (((List.range 60).map toString).foldl GameState.add_log_message
        (mkState (mkPlayer 1 1) [])).log_messages =
      ((List.range 60).map toString).drop 10 :=
  log_bounded_fifo (mkState (mkPlayer 1 1) []) (mkState (mkPlayer 1 1) []) "hello"
    ((List.range 60).map toString) (by decide) rfl (by simp)

/-- On arguments inside the `i32` range the two's-complement wrap is the
identity: the embedded wrapping operation agrees with plain integer
arithmetic exactly where the source does not overflow. -/
theorem wrapI32_eq_self (n : Int) (h1 : -2147483648 ≤ n) (h2 : n < 2147483648) :
    wrapI32 n = n := by
  unfold wrapI32
  omega

/-- Claim C8 counterexample: from the valid player state
`health = 100, max_health = 100`, the call `heal(-200)` drives health to
`-100`, and the call `heal(2147483647)` (a *nonnegative* `i32` argument)
overflows the `i32` addition and wraps health to `-2147483549`; both
violate `0 ≤ health ≤ max_health`, so the invariant is preserved neither
for every integer argument nor even for every nonnegative one. -/
theorem player_invariant_counterexample :
    (0 ≤ (mkPlayer 1 1).health ∧ (mkPlayer 1 1).health ≤ (mkPlayer 1 1).max_health) ∧
    ((mkPlayer 1 1).heal (-200)).health = -100 ∧
    ¬(0 ≤ ((mkPlayer 1 1).heal (-200)).health ∧
        ((mkPlayer 1 1).heal (-200)).health ≤ ((mkPlayer 1 1).heal (-200)).max_health) ∧
    ((mkPlayer 1 1).heal 2147483647).health = -2147483549 ∧
    ¬(0 ≤ ((mkPlayer 1 1).heal 2147483647).health) := by
  decide

/-- Claim C8 (amended): for every Player with `0 ≤ health ≤ max_health`,
every nonnegative `i32` damage, and every nonnegative amount whose
addition to health stays within `i32` (no overflow), `take_damage` and
`heal` preserve `0 ≤ health ≤ max_health`, and `is_alive` is true iff
`health > 0` (before and after either call). -/
theorem player_invariant_preserved (p : Player) (damage amount : Int)
    (hp : 0 ≤ p.health ∧ p.health ≤ p.max_health)
    (hd : 0 ≤ damage) (hd2 : damage ≤ 2147483647)
    (ha : 0 ≤ amount) (hnof : p.health + amount ≤ 2147483647) :
    (0 ≤ (p.take_damage damage).health ∧
      (p.take_damage damage).health ≤ (p.take_damage damage).max_health) ∧
    (0 ≤ (p.heal amount).health ∧ (p.heal amount).health ≤ (p.heal amount).max_health) ∧
    (p.is_alive = true ↔ 0 < p.health) ∧
    ((p.take_damage damage).is_alive = true ↔ 0 < (p.take_damage damage).health) ∧
    ((p.heal amount).is_alive = true ↔ 0 < (p.heal amount).health) := by
  obtain ⟨h0, hmax⟩ := hp
  have hwrap : wrapI32 (p.health + amount) = p.health + amount :=
    wrapI32_eq_self (p.health + amount) (by omega) (by omega)
  refine ⟨?_, ?_, ?_, ?_, ?_⟩
  · unfold Player.take_damage
    constructor
    · simp
    · simp only []
      omega
  · unfold Player.heal
    rw [hwrap]
    constructor
    · simp only []
      omega
    · simp only []
      omega
  · unfold Player.is_alive
    simp
  · unfold Player.is_alive
    simp
  · unfold Player.is_alive
    unfold Player.heal
    simp

/-- Witness for the amended C8 at concrete inputs. -/
theorem player_invariant_preserved_witness :
    (0 ≤ ((mkPlayer 1 1).take_damage 30).health ∧
      ((mkPlayer 1 1).take_damage 30).health ≤ ((mkPlayer 1 1).take_damage 30).max_health) ∧
    (0 ≤ ((mkPlayer 1 1).heal 30).health ∧
      ((mkPlayer 1 1).heal 30).health ≤ ((mkPlayer 1 1).heal 30).max_health) ∧
    ((mkPlayer 1 1).is_alive = true ↔ 0 < (mkPlayer 1 1).health) ∧
    (((mkPlayer 1 1).take_damage 30).is_alive = true ↔
      0 < ((mkPlayer 1 1).take_damage 30).health) ∧
    (((mkPlayer 1 1).heal 30).is_alive = true ↔ 0 < ((mkPlayer 1 1).heal 30).health) :=
  player_invariant_preserved (mkPlayer 1 1) 30 30 (by decide) (by decide) (by decide)
    (by decide) (by decide)

theorem removeFirstAt_none (npcs : List NPC) (p : Int × Int)
    (h : ∀ n ∈ npcs, n.position ≠ p) : removeFirstAt npcs p = none := by
  induction npcs with
  | nil => rfl
  | cons n tail ih =>
    unfold removeFirstAt
    rw [if_neg (h n (List.mem_cons_self n tail)), ih fun m hm => h m (List.mem_cons_of_mem n hm)]

theorem removeFirstAt_length (npcs : List NPC) (p : Int × Int) :
    ∀ npc rest, removeFirstAt npcs p = some (npc, rest) → rest.length + 1 = npcs.length := by
  induction npcs with
  | nil => intro npc rest h; simp [removeFirstAt] at h
  | cons n tail ih =>
    intro npc rest h
    unfold removeFirstAt at h
    by_cases he : n.position = p
    · rw [if_pos he] at h
      simp only [Option.some.injEq, Prod.mk.injEq] at h
      rw [← h.2]
      simp
    · rw [if_neg he] at h
      cases hm : removeFirstAt tail p with
      | none => rw [hm] at h; simp at h
      | some pr =>
        obtain ⟨found, rest2⟩ := pr
        rw [hm] at h
        simp only [Option.some.injEq, Prod.mk.injEq] at h
        have htail := ih found rest2 hm
        rw [← h.2]
        simp only [List.length_cons]
        omega

theorem is_walkable_imp_valid (w : GameWorld) (x y : Int)
    (h : w.is_walkable x y = true) : w.is_valid_position x y = true := by
  unfold GameWorld.is_walkable GameWorld.get_tile at h
  unfold GameWorld.is_valid_position
  by_cases hc : 0 ≤ x ∧ 0 ≤ y ∧ x.toNat < w.size.1 ∧ y.toNat < w.size.2
  · simp [hc.1, hc.2.1, hc.2.2.1, hc.2.2.2]
  · rw [if_neg hc] at h
    simp at h

/-- Claim C3: when the move target is invalid or unwalkable,
`try_move_player` fails, appends exactly `"Can't move there!"` to the log,
and changes neither the player position, the NPC collection, the player
inventory, nor the world item list. -/
theorem try_move_blocked (s : GameState) (rand : Nat) (dx dy : Int)
    (h : s.world.is_valid_position (s.player.position.1 + dx) (s.player.position.2 + dy) = false ∨
      s.world.is_walkable (s.player.position.1 + dx) (s.player.position.2 + dy) = false) :
    (s.try_move_player rand dx dy).2 = false ∧
    (s.try_move_player rand dx dy).1.log_messages =
      pushLog s.log_messages "Can\x27t move there!" ∧
    (s.try_move_player rand dx dy).1.player.position = s.player.position ∧
    (s.try_move_player rand dx dy).1.npcs = s.npcs ∧
    (s.try_move_player rand dx dy).1.player.inventory = s.player.inventory ∧
    (s.try_move_player rand dx dy).1.world.items = s.world.items := by
  have hguard :
      (!(s.world.is_valid_position (s.player.position.1 + dx) (s.player.position.2 + dy)) ||
        !(s.world.is_walkable (s.player.position.1 + dx) (s.player.position.2 + dy))) = true := by
    rcases h with h | h <;> simp [h]
  refine ⟨?_, ?_, ?_, ?_, ?_, ?_⟩ <;>
    simp [GameState.try_move_player, hguard, GameState.add_log_message]

/-- Witness for C3: moving off the west edge of the 5×5 world. -/
theorem try_move_blocked_witness :
    ((mkState (mkPlayer 0 1) []).try_move_player 0 (-1) 0).2 = false ∧
    ((mkState (mkPlayer 0 1) []).try_move_player 0 (-1) 0).1.log_messages =
      pushLog (mkState (mkPlayer 0 1) []).log_messages "Can\x27t move there!" ∧
    ((mkState (mkPlayer 0 1) []).try_move_player 0 (-1) 0).1.player.position =
      (mkState (mkPlayer 0 1) []).player.position ∧
    ((mkState (mkPlayer 0 1) []).try_move_player 0 (-1) 0).1.npcs =
      (mkState (mkPlayer 0 1) []).npcs ∧
    ((mkState (mkPlayer 0 1) []).try_move_player 0 (-1) 0).1.player.inventory =
      (mkState (mkPlayer 0 1) []).player.inventory ∧
    ((mkState (mkPlayer 0 1) []).try_move_player 0 (-1) 0).1.world.items =
      (mkState (mkPlayer 0 1) []).world.items :=
  try_move_blocked (mkState (mkPlayer 0 1) []) 0 (-1) 0 (Or.inl (by decide))

/-- Claim C2: stepping onto a valid, walkable tile whose (first-found)
occupant is a Skeleton removes that skeleton for good, deposits exactly
one Key WorldItem at the collision tile, leaves the player where they
were, and returns false. -/
theorem try_move_skeleton (s : GameState) (rand : Nat) (dx dy : Int)
    (npc : NPC) (remaining : List NPC)
    (hv : s.world.is_valid_position (s.player.position.1 + dx) (s.player.position.2 + dy) = true)
    (hw : s.world.is_walkable (s.player.position.1 + dx) (s.player.position.2 + dy) = true)
    (hfind : removeFirstAt s.npcs (s.player.position.1 + dx, s.player.position.2 + dy) =
      some (npc, remaining))
    (hskel : npc.npc_type = NPCType.Skeleton) :
    (s.try_move_player rand dx dy).2 = false ∧
    (s.try_move_player rand dx dy).1.npcs = remaining ∧
    (s.try_move_player rand dx dy).1.npcs.length + 1 = s.npcs.length ∧
    (s.try_move_player rand dx dy).1.world.items =
      s.world.items ++
        [WorldItem.mk (s.player.position.1 + dx, s.player.position.2 + dy) boneKey] ∧
    (s.try_move_player rand dx dy).1.player.position = s.player.position := by
  have hguard :
      (!(s.world.is_valid_position (s.player.position.1 + dx) (s.player.position.2 + dy)) ||
        !(s.world.is_walkable (s.player.position.1 + dx) (s.player.position.2 + dy))) = false := by
    simp [hv, hw]
  have hlen := removeFirstAt_length s.npcs
    (s.player.position.1 + dx, s.player.position.2 + dy) npc remaining hfind
  refine ⟨?_, ?_, ?_, ?_, ?_⟩ <;>
    simp [GameState.try_move_player, hguard, hfind, GameState.interact_with_npc, hskel,
      GameState.add_log_message, hlen]

/-- Witness for C2: the player at (1,1) walks into the skeleton at (2,1). -/
theorem try_move_skeleton_witness :
    ((mkState (mkPlayer 1 1) [skeletonNPC]).try_move_player 0 1 0).2 = false ∧
    ((mkState (mkPlayer 1 1) [skeletonNPC]).try_move_player 0 1 0).1.npcs = [] ∧
    ((mkState (mkPlayer 1 1) [skeletonNPC]).try_move_player 0 1 0).1.npcs.length + 1 =
      (mkState (mkPlayer 1 1) [skeletonNPC]).npcs.length ∧
    ((mkState (mkPlayer 1 1) [skeletonNPC]).try_move_player 0 1 0).1.world.items =
      (mkState (mkPlayer 1 1) [skeletonNPC]).world.items ++
        [WorldItem.mk ((mkState (mkPlayer 1 1) [skeletonNPC]).player.position.1 + 1,
          (mkState (mkPlayer 1 1) [skeletonNPC]).player.position.2 + 0) boneKey] ∧
    ((mkState (mkPlayer 1 1) [skeletonNPC]).try_move_player 0 1 0).1.player.position =
      (mkState (mkPlayer 1 1) [skeletonNPC]).player.position :=
  try_move_skeleton (mkState (mkPlayer 1 1) [skeletonNPC]) 0 1 0 skeletonNPC []
    (by decide) (by decide) (by decide) rfl

/-- Claim C7: stepping onto a valid, walkable tile whose (first-found)
occupant is an Orc deals damage drawn from [5, 20], reinserts the orc
(appended back to the collection), never lets health drop below 0, and
the move returns false. -/
theorem try_move_orc (s : GameState) (rand : Nat) (dx dy : Int)
    (npc : NPC) (remaining : List NPC)
    (hv : s.world.is_valid_position (s.player.position.1 + dx) (s.player.position.2 + dy) = true)
    (hw : s.world.is_walkable (s.player.position.1 + dx) (s.player.position.2 + dy) = true)
    (hfind : removeFirstAt s.npcs (s.player.position.1 + dx, s.player.position.2 + dy) =
      some (npc, remaining))
    (horc : npc.npc_type = NPCType.Orc) :
    (s.try_move_player rand dx dy).2 = false ∧
    (s.try_move_player rand dx dy).1.npcs = remaining ++ [npc] ∧
    5 ≤ genRange5to20 rand ∧ genRange5to20 rand ≤ 20 ∧
    (s.try_move_player rand dx dy).1.player.health =
      max (s.player.health - genRange5to20 rand) 0 ∧
    0 ≤ (s.try_move_player rand dx dy).1.player.health ∧
    (s.try_move_player rand dx dy).1.player.position = s.player.position := by
  have hguard :
      (!(s.world.is_valid_position (s.player.position.1 + dx) (s.player.position.2 + dy)) ||
        !(s.world.is_walkable (s.player.position.1 + dx) (s.player.position.2 + dy))) = false := by
    simp [hv, hw]
  have hmod : rand % 16 < 16 := Nat.mod_lt rand (by norm_num)
  refine ⟨?_, ?_, ?_, ?_, ?_, ?_, ?_⟩ <;>
    simp [GameState.try_move_player, hguard, hfind, GameState.interact_with_npc, horc,
      GameState.add_log_message, Player.take_damage, genRange5to20] <;>
    omega

/-- Witness for C7: the player at (1,1) walks into the orc at (2,1). -/
theorem try_move_orc_witness :
    ((mkState (mkPlayer 1 1) [orcNPC]).try_move_player 0 1 0).2 = false ∧
    ((mkState (mkPlayer 1 1) [orcNPC]).try_move_player 0 1 0).1.npcs = [] ++ [orcNPC] ∧
    5 ≤ genRange5to20 0 ∧ genRange5to20 0 ≤ 20 ∧
    ((mkState (mkPlayer 1 1) [orcNPC]).try_move_player 0 1 0).1.player.health =
      max ((mkState (mkPlayer 1 1) [orcNPC]).player.health - genRange5to20 0) 0 ∧
    0 ≤ ((mkState (mkPlayer 1 1) [orcNPC]).try_move_player 0 1 0).1.player.health ∧
    ((mkState (mkPlayer 1 1) [orcNPC]).try_move_player 0 1 0).1.player.position =
      (mkState (mkPlayer 1 1) [orcNPC]).player.position :=
  try_move_orc (mkState (mkPlayer 1 1) [orcNPC]) 0 1 0 orcNPC []
    (by decide) (by decide) (by decide) rfl

/-- Claim C10: the no-op move `try_move_player(0, 0)` on a walkable,
NPC-free player tile succeeds, logs a "Moved to (x, y)" entry for the
unchanged coordinates, and leaves the player position unchanged. -/
theorem try_move_noop (s : GameState) (rand : Nat)
    (hw : s.world.is_walkable s.player.position.1 s.player.position.2 = true)
    (hnp : ∀ n ∈ s.npcs, n.position ≠ s.player.position) :
    (s.try_move_player rand 0 0).2 = true ∧
    (s.try_move_player rand 0 0).1.player.position = s.player.position ∧
    (s.try_move_player rand 0 0).1.log_messages =
      pushLog s.log_messages
        ("Moved to (" ++ toString s.player.position.1 ++ ", " ++
          toString s.player.position.2 ++ ")") := by
  have hv := is_walkable_imp_valid s.world s.player.position.1 s.player.position.2 hw
  have hfind : removeFirstAt s.npcs s.player.position = none :=
    removeFirstAt_none s.npcs s.player.position hnp
  refine ⟨?_, ?_, ?_⟩ <;>
    simp [GameState.try_move_player, hv, hw, hfind, GameState.add_log_message, Player.move_to]

/-- Witness for C10: the no-op move at (1,1) on the all-floor world. -/
theorem try_move_noop_witness :
    ((mkState (mkPlayer 1 1) []).try_move_player 0 0 0).2 = true ∧
    ((mkState (mkPlayer 1 1) []).try_move_player 0 0 0).1.player.position =
      (mkState (mkPlayer 1 1) []).player.position ∧
    ((mkState (mkPlayer 1 1) []).try_move_player 0 0 0).1.log_messages =
      pushLog (mkState (mkPlayer 1 1) []).log_messages
        ("Moved to (" ++ toString (mkState (mkPlayer 1 1) []).player.position.1 ++ ", " ++
          toString (mkState (mkPlayer 1 1) []).player.position.2 ++ ")") :=
  try_move_noop (mkState (mkPlayer 1 1) []) 0 (by decide) (by intro n hn; cases hn)

theorem removeFirstChest_split (chest : Item) (post : List Item)
    (hchest : chest.item_type = ItemType.TreasureChest) :
    ∀ pre : List Item, (∀ it ∈ pre, it.item_type ≠ ItemType.TreasureChest) →
      removeFirstChest (pre ++ chest :: post) = some (pre ++ post) := by
  intro pre
  induction pre with
  | nil =>
    intro _
    simp [removeFirstChest, hchest]
  | cons a pre ih =>
    intro h
    have ha : a.item_type ≠ ItemType.TreasureChest := h a (List.mem_cons_self a pre)
    simp only [List.cons_append, removeFirstChest, if_neg ha]
    rw [List.append_eq, ih fun it hit => h it (List.mem_cons_of_mem a hit)]
    rfl

theorem removeFirstChest_none (l : List Item)
    (h : ∀ it ∈ l, it.item_type ≠ ItemType.TreasureChest) : removeFirstChest l = none := by
  induction l with
  | nil => rfl
  | cons a rest ih =>
    have ha : a.item_type ≠ ItemType.TreasureChest := h a (List.mem_cons_self a rest)
    simp only [removeFirstChest, if_neg ha]
    rw [ih fun it hit => h it (List.mem_cons_of_mem a hit)]
    rfl

theorem removeFirstChest_sublist (l : List Item) :
    ∀ r, removeFirstChest l = some r → r.Sublist l := by
  induction l with
  | nil => intro r h; simp [removeFirstChest] at h
  | cons a rest ih =>
    intro r h
    unfold removeFirstChest at h
    by_cases he : a.item_type = ItemType.TreasureChest
    · rw [if_pos he] at h
      simp only [Option.some.injEq] at h
      rw [← h]
      exact List.sublist_cons_self a rest
    · rw [if_neg he] at h
      cases hm : removeFirstChest rest with
      | none => rw [hm] at h; simp at h
      | some r2 =>
        rw [hm] at h
        simp at h
        rw [← h]
        exact (ih r2 hm).cons₂ a

/-- Claim C4: using a Key with a TreasureChest in the inventory removes
exactly the first chest, logs the unlocking message and spawns one
Treasure WorldItem at the player position; without a chest only the
failure message is logged and inventory/world items are unchanged; in
both branches the resulting inventory is a sublist of the old one (the
key is never placed back). -/
theorem use_item_key (s : GameState) (item : Item) (hk : item.item_type = ItemType.Key) :
    (∀ pre chest post, s.player.inventory = pre ++ chest :: post →
      chest.item_type = ItemType.TreasureChest →
      (∀ it ∈ pre, it.item_type ≠ ItemType.TreasureChest) →
      (s.use_item item).player.inventory = pre ++ post ∧
      (s.use_item item).world.items =
        s.world.items ++ [WorldItem.mk s.player.position treasurePile] ∧
      (s.use_item item).log_messages =
        pushLog s.log_messages
          "When the key clicks in the lock the treasure chest spills open, dropping a pile of treasure on the ground") ∧
    ((∀ it ∈ s.player.inventory, it.item_type ≠ ItemType.TreasureChest) →
      (s.use_item item).player.inventory = s.player.inventory ∧
      (s.use_item item).world.items = s.world.items ∧
      (s.use_item item).log_messages =
        pushLog s.log_messages
          ("You used " ++ item.label ++ ", but you need a treasure chest to unlock.")) ∧
    (s.use_item item).player.inventory.Sublist s.player.inventory := by
  refine ⟨?_, ?_, ?_⟩
  · intro pre chest post hinv hchest hpre
    have hrc : removeFirstChest s.player.inventory = some (pre ++ post) := by
      rw [hinv]
      exact removeFirstChest_split chest post hchest pre hpre
    refine ⟨?_, ?_, ?_⟩ <;>
      simp [GameState.use_item, hk, hrc, GameState.add_log_message]
  · intro hnone
    have hrc : removeFirstChest s.player.inventory = none := removeFirstChest_none _ hnone
    refine ⟨?_, ?_, ?_⟩ <;>
      simp [GameState.use_item, hk, hrc, GameState.add_log_message]
  · cases hrc : removeFirstChest s.player.inventory with
    | none =>
      have : (s.use_item item).player.inventory = s.player.inventory := by
        simp [GameState.use_item, hk, hrc, GameState.add_log_message]
      rw [this]
    | some r =>
      have : (s.use_item item).player.inventory = r := by
        simp [GameState.use_item, hk, hrc, GameState.add_log_message]
      rw [this]
      exact removeFirstChest_sublist s.player.inventory r hrc

/-- The treasure chest item placed by the treasure-hunt setup. -/
def chestItem : Item :=
  { item_type := ItemType.TreasureChest
    label := "Treasure Chest"
    description := "A mysterious chest that might contain valuable items." }

/-- Witness for C4: a player holding exactly one chest uses a key. -/
theorem use_item_key_witness :
    ((mkState { mkPlayer 1 1 with inventory := [chestItem] } []).use_item
        boneKey).player.inventory = [] ++ [] ∧
    ((mkState { mkPlayer 1 1 with inventory := [chestItem] } []).use_item boneKey).world.items =
      (mkState { mkPlayer 1 1 with inventory := [chestItem] } []).world.items ++
        [WorldItem.mk (mkState { mkPlayer 1 1 with inventory := [chestItem] } []).player.position
          treasurePile] ∧
    ((mkState { mkPlayer 1 1 with inventory := [chestItem] } []).use_item
        boneKey).player.inventory.Sublist
      (mkState { mkPlayer 1 1 with inventory := [chestItem] } []).player.inventory := by
  have h := use_item_key (mkState { mkPlayer 1 1 with inventory := [chestItem] } []) boneKey rfl
  have h1 := h.1 [] chestItem [] rfl rfl (by intro it hit; cases hit)
  exact ⟨h1.1, h1.2.1, h.2.2⟩

/-- Claim C9: an orc within Euclidean distance 5.0 of the player takes the
greedy one-step move (per-axis sign of the delta); if the target equals
the player's position it attacks for damage in [5, 20] and does not move;
if the target is invalid, unwalkable or occupied by another NPC, nothing
changes this turn. -/
theorem orc_behavior_close (npc : NPC) (world : GameWorld) (player : Player)
    (other_npcs : List NPC) (rand r1 r2 : Nat)
    (hdist : distSq npc.position player.position ≤ 25) :
    npc.orc_behavior world player other_npcs rand r1 r2 =
      npc.move_towards_player_or_attack world player other_npcs rand ∧
    (orcStepTarget npc player = player.position →
      npc.orc_behavior world player other_npcs rand r1 r2 =
        (npc, player.take_damage (genRange5to20 rand),
          ["The orc " ++ npc.name ++ " attacks you for " ++
            toString (genRange5to20 rand) ++ " damage!"]) ∧
      5 ≤ genRange5to20 rand ∧ genRange5to20 rand ≤ 20 ∧
      0 ≤ (player.take_damage (genRange5to20 rand)).health) ∧
    (orcStepTarget npc player ≠ player.position →
      (world.is_valid_position (orcStepTarget npc player).1
          (orcStepTarget npc player).2 = false ∨
        world.is_walkable (orcStepTarget npc player).1
          (orcStepTarget npc player).2 = false ∨
        (other_npcs.any fun n => n.position == orcStepTarget npc player) = true) →
      npc.orc_behavior world player other_npcs rand r1 r2 = (npc, player, [])) ∧
    (orcStepTarget npc player ≠ player.position →
      world.is_valid_position (orcStepTarget npc player).1
        (orcStepTarget npc player).2 = true →
      world.is_walkable (orcStepTarget npc player).1
        (orcStepTarget npc player).2 = true →
      (other_npcs.any fun n => n.position == orcStepTarget npc player) = false →
      npc.orc_behavior world player other_npcs rand r1 r2 =
        ({ npc with position := orcStepTarget npc player }, player, [])) := by
  have hmod : rand % 16 < 16 := Nat.mod_lt rand (by norm_num)
  have hbe : npc.orc_behavior world player other_npcs rand r1 r2 =
      npc.move_towards_player_or_attack world player other_npcs rand := by
    unfold NPC.orc_behavior
    rw [if_pos hdist]
  refine ⟨hbe, ?_, ?_, ?_⟩
  · intro hattack
    refine ⟨?_, ?_, ?_, ?_⟩
    · rw [hbe]
      unfold NPC.move_towards_player_or_attack
      rw [if_pos hattack]
    · unfold genRange5to20; omega
    · unfold genRange5to20; omega
    · simp [Player.take_damage]
  · intro hne hblocked
    rw [hbe]
    unfold NPC.move_towards_player_or_attack
    rw [if_neg hne]
    rcases hblocked with h | h | h
    · have hg : (!(world.is_valid_position (orcStepTarget npc player).1
          (orcStepTarget npc player).2) ||
          !(world.is_walkable (orcStepTarget npc player).1
            (orcStepTarget npc player).2)) = true := by simp [h]
      rw [if_pos hg]
    · have hg : (!(world.is_valid_position (orcStepTarget npc player).1
          (orcStepTarget npc player).2) ||
          !(world.is_walkable (orcStepTarget npc player).1
            (orcStepTarget npc player).2)) = true := by simp [h]
      rw [if_pos hg]
    · by_cases hg : (!(world.is_valid_position (orcStepTarget npc player).1
          (orcStepTarget npc player).2) ||
          !(world.is_walkable (orcStepTarget npc player).1
            (orcStepTarget npc player).2)) = true
      · rw [if_pos hg]
      · rw [if_neg hg, if_pos h]
  · intro hne hv hw hocc
    rw [hbe]
    unfold NPC.move_towards_player_or_attack
    rw [if_neg hne]
    have hg : (!(world.is_valid_position (orcStepTarget npc player).1
        (orcStepTarget npc player).2) ||
        !(world.is_walkable (orcStepTarget npc player).1
          (orcStepTarget npc player).2)) = false := by simp [hv, hw]
    rw [if_neg (by rw [hg]; exact Bool.false_ne_true)]
    rw [if_neg (by rw [hocc]; exact Bool.false_ne_true)]

/-- An orc standing one diagonal step away from (2, 2). -/
def orcNear : NPC :=
  { orcNPC with position := (1, 1) }

/-- Witness for C9: the orc at (1,1) attacks the player at (2,2), and the
same orc moves to its sign-step target (2,2) when the player stands at
(4,4) and the target is free. -/
theorem orc_behavior_close_witness :
    orcNear.orc_behavior flatWorld (mkPlayer 2 2) [] 0 0 0 =
      orcNear.move_towards_player_or_attack flatWorld (mkPlayer 2 2) [] 0 ∧
    orcNear.orc_behavior flatWorld (mkPlayer 2 2) [] 0 0 0 =
      (orcNear, (mkPlayer 2 2).take_damage (genRange5to20 0),
        ["The orc " ++ orcNear.name ++ " attacks you for " ++
          toString (genRange5to20 0) ++ " damage!"]) ∧
    5 ≤ genRange5to20 0 ∧ genRange5to20 0 ≤ 20 ∧
    0 ≤ ((mkPlayer 2 2).take_damage (genRange5to20 0)).health ∧
    orcNear.orc_behavior flatWorld (mkPlayer 4 4) [] 0 0 0 =
      ({ orcNear with position := orcStepTarget orcNear (mkPlayer 4 4) },
        mkPlayer 4 4, []) := by
  have h := orc_behavior_close orcNear flatWorld (mkPlayer 2 2) [] 0 0 0 (by decide)
  have h2 := h.2.1 (by decide)
  have hm := (orc_behavior_close orcNear flatWorld (mkPlayer 4 4) [] 0 0 0
    (by decide)).2.2.2 (by decide) (by decide) (by decide) rfl
  exact ⟨h.1, h2.1, h2.2.1, h2.2.2.1, h2.2.2.2, hm⟩
